import Mathlib

/-!
# Project catalog server (`src/server.js`)

A shallow embedding of the Express handlers of `src/server.js`: the snapshot
file `db.json`, the `uploads/` directory, the session check and the three
mutating routes together with the public list route.

JavaScript strings are lists of characters.  A multipart text field is either
absent (`none`) or a string (`some s`).  Numbers that serve as record ids are
integers: the values produced by `Date.now()` and the Number values that
`parseInt` returns, which is the double nearest to the digits read.

Every route is a pure function of
* the request,
* the world before the request (snapshot file and asset directory),
* the environment of the call: the clock readings and the fate of
  `fs.writeFileSync`.

It returns the world afterwards, the response and the ordered list of effects
that the handler issued.
-/

namespace Portoweb

/-! ## Strings -/

/-- JavaScript string, as the list of its characters. -/
abbrev Str := List Char

/-- Characters removed by `String.prototype.trim` and skipped by `parseInt`:
the ECMAScript `WhiteSpace` and `LineTerminator` productions. -/
def isWhiteSpace (c : Char) : Bool :=
  c.toNat == 0x09 || c.toNat == 0x0A || c.toNat == 0x0B || c.toNat == 0x0C ||
  c.toNat == 0x0D || c.toNat == 0x20 || c.toNat == 0xA0 || c.toNat == 0x1680 ||
  (0x2000 ≤ c.toNat && c.toNat ≤ 0x200A) || c.toNat == 0x2028 || c.toNat == 0x2029 ||
  c.toNat == 0x202F || c.toNat == 0x205F || c.toNat == 0x3000 || c.toNat == 0xFEFF

/-- The method `t.trim()`. -/
def trim (s : Str) : Str :=
  ((s.dropWhile isWhiteSpace).reverse.dropWhile isWhiteSpace).reverse

/-- The call `tech.split(',')`: the pieces between commas, empty pieces kept;
the empty string gives one empty piece. -/
def split : Str → List Str
  | [] => [[]]
  | c :: cs =>
    if c = ',' then [] :: split cs
    else match split cs with
      | [] => [[c]]
      | t :: ts => (c :: t) :: ts

/-- JavaScript truthiness of a value that is `undefined`/`null` or a string:
only a non-empty string is truthy. -/
def truthy : Option Str → Bool
  | some (_ :: _) => true
  | _ => false

/-- The expression `tech.split(',').map(t => t.trim()).filter(t => t)`
(lines 127 and 154). -/
def techTokens (tech : Str) : List Str :=
  ((split tech).map trim).filter (fun t => truthy (some t))

/-- Decimal digit test used by `parseInt` with radix 10. -/
def isDigit (c : Char) : Bool := 48 ≤ c.toNat && c.toNat ≤ 57

/-- Value of a run of decimal digits. -/
def digitsValue (z : Str) : Nat := z.foldl (fun acc c => acc * 10 + (c.toNat - 48)) 0

/-- Number of binary digits of `n`, by a loop that halves `n` at most `fuel`
times. -/
def bitLengthAux : Nat → Nat → Nat
  | 0, _ => 0
  | fuel + 1, n => if n = 0 then 0 else bitLengthAux fuel (n / 2) + 1

/-- Number of binary digits of a natural number. -/
def bitLength (n : Nat) : Nat := bitLengthAux n n

/-- The Number value of a mathematical natural number: itself below `2 ^ 53`,
otherwise the nearest value with 53 significant binary digits, a tie going to
the even one; `none` when that value has more than 1024 binary digits, that is,
reaches `2 ^ 1024` (`Infinity`). -/
def toNumber (n : Nat) : Option Nat :=
  if n < 2 ^ 53 then some n
  else
    let shift := bitLength n - 53
    let q := n / 2 ^ shift
    let r := n % 2 ^ shift
    let half := 2 ^ (shift - 1)
    let q1 := if half < r ∨ (r = half ∧ q % 2 = 1) then q + 1 else q
    if bitLength (q1 * 2 ^ shift) ≤ 1024 then some (q1 * 2 ^ shift) else none

/-- The call `parseInt(s, 10)`: leading white space skipped, an optional sign,
then the longest run of decimal digits, whose value is returned as a Number
(the nearest double); `none` stands for `NaN` and for an infinite result,
neither of which is `===` to an integer id. -/
def parseInt (s : Str) : Option Int :=
  let s1 := s.dropWhile isWhiteSpace
  let neg := decide (s1.head? = some '-')
  let s2 := if s1.head? = some '-' ∨ s1.head? = some '+' then s1.tail else s1
  let z := s2.takeWhile isDigit
  if z = [] then none
  else match toNumber (digitsValue z) with
    | none => none
    | some m => some (if neg then - (m : Int) else (m : Int))

/-- The string that JavaScript makes of an integer id, as the client does when it
builds the address of a record from its id. -/
def decimal (id : Int) : Str :=
  if id < 0 then '-' :: Nat.toDigits 10 id.natAbs else Nat.toDigits 10 id.natAbs

/-! ## Data model -/

/-- A record of `db.projects`, as `JSON.parse` returns it: `id` is an integer
Number value, `createdAt` a time in milliseconds. -/
structure Project where
  id : Int
  title : Str
  category : Str
  description : Str
  tech : List Str
  url : Str
  image : Option Str
  createdAt : Nat
deriving DecidableEq, Repr

/-- The text fields of `req.body` after multer parsed the multipart form. -/
structure Body where
  title : Option Str
  category : Option Str
  description : Option Str
  tech : Option Str
  url : Option Str
deriving DecidableEq, Repr

/-- The file part named `image` of a multipart request: its bytes and
`path.extname(file.originalname)`. -/
structure FilePart where
  ext : Str
  bytes : List Nat
deriving DecidableEq, Repr

/-- An incoming request: `req.session.user` (the user name when logged in),
`req.params.id`, the form fields and the optional file part. -/
structure Request where
  sessionUser : Option Str
  paramId : Str
  body : Body
  file : Option FilePart
deriving DecidableEq, Repr

/-- The two shared resources: the snapshot file (`none` when `db.json` is
missing or does not parse) and the files of the asset directory, keyed by the
logical reference `/uploads/<filename>` that a record stores in `image`. -/
structure World where
  disk : Option (List Project)
  uploads : List (Str × List Nat)
deriving DecidableEq, Repr

/-- What `fs.writeFileSync` does in a call: it succeeds, or it throws and leaves
some content (unchanged, damaged, ...) in the file. -/
inductive WriteOutcome where
  | ok
  | fails (residue : Option (List Project))
deriving DecidableEq, Repr

/-- The environment of one request: the three clock readings (`Date.now()` in
multer's `filename` callback, `Date.now()` for the id, `new Date()` for
`createdAt`) and the fate of the snapshot write. -/
structure Env where
  uploadNow : Nat
  idNow : Nat
  createdNow : Nat
  write : WriteOutcome
deriving DecidableEq, Repr

/-- Body of a response. -/
inductive ResBody where
  | message (text : String)
  | project (p : Project)
  | projects (ps : List Project)
  | empty
deriving DecidableEq, Repr

/-- Status code and body sent to the caller. -/
structure Response where
  status : Nat
  body : ResBody
deriving DecidableEq, Repr

/-- Effects issued by the middleware chain, in program order. -/
inductive Effect where
  | storeUpload (ref : Str)
  | readDB
  | unlink (ref : Str)
  | writeDB (data : List Project)
  | respond (status : Nat)
deriving DecidableEq, Repr

/-- Result of running a route. -/
structure Outcome where
  world : World
  response : Response
  trace : List Effect
deriving DecidableEq, Repr

/-! ## Database functions and middleware -/

/-- The function `readDB` (lines 33-42): the parsed snapshot, or an object with
no projects when reading or parsing fails. -/
def readDB (w : World) : List Project :=
  match w.disk with
  | some ps => ps
  | none => []

/-- The function `writeDB` (lines 44-50): the write is attempted and an
exception is caught and logged; nothing is returned or rethrown. -/
def writeDB (env : Env) (data : List Project) (w : World) : World :=
  match env.write with
  | WriteOutcome.ok => { w with disk := some data }
  | WriteOutcome.fails residue => { w with disk := residue }

/-- Asset directory after a file is written under a reference. -/
def storeFile (ref : Str) (bytes : List Nat) (area : List (Str × List Nat)) :
    List (Str × List Nat) :=
  (ref, bytes) :: area.filter (fun e => e.1 ≠ ref)

/-- Asset directory after `fs.unlink` of a reference has completed (a missing
file only logs an error). -/
def unlinkFile (ref : Str) (area : List (Str × List Nat)) : List (Str × List Nat) :=
  area.filter (fun e => e.1 ≠ ref)

/-- The reference `/uploads/${filename}`. -/
def uploadRef (filename : Str) : Str := "/uploads/".toList ++ filename

/-- The multer middleware `upload.single('image')` (lines 65-73): a file part is
written to the asset directory under `Date.now() + path.extname(originalname)`
before the handler runs; it yields `req.file.filename`. -/
def upload (env : Env) (req : Request) (w : World) : World × Option Str × List Effect :=
  match req.file with
  | none => (w, none, [])
  | some f =>
    let filename := Nat.toDigits 10 env.uploadNow ++ f.ext
    ({ w with uploads := storeFile (uploadRef filename) f.bytes w.uploads },
      some filename, [Effect.storeUpload (uploadRef filename)])

/-- The middleware `isAuthenticated` (lines 56-62): `next` runs only when the
session carries a user; otherwise 401 is sent. -/
def isAuthenticated (req : Request) (w : World) (next : Outcome) : Outcome :=
  match req.sessionUser with
  | some _ => next
  | none =>
    { world := w
      response := ⟨401, ResBody.message "Unauthorized: You must be logged in."⟩
      trace := [Effect.respond 401] }

/-- The call `db.projects.findIndex(pred)`: the first position whose record
satisfies the predicate; `none` stands for `-1`. -/
def findIndex (pred : Project → Bool) : (ps : List Project) → Option (Fin ps.length)
  | [] => none
  | x :: xs => if pred x then some ⟨0, Nat.succ_pos _⟩ else (findIndex pred xs).map Fin.succ

/-- The test `p.id === projectId` where `projectId` may be `NaN`. -/
def idMatches (projectId : Option Int) (p : Project) : Bool :=
  decide (some p.id = projectId)

/-! ## Routes -/

/-- The route `GET /api/projects` (lines 108-111). -/
def getProjects (_req : Request) (w : World) : Outcome :=
  { world := w
    response := ⟨200, ResBody.projects (readDB w)⟩
    trace := [Effect.readDB, Effect.respond 200] }

/-- The object literal `newProject` (lines 122-131). -/
def newProject (env : Env) (body : Body) (filename : Option Str) : Project :=
  { id := (env.idNow : Int)
    title := body.title.getD []
    category := body.category.getD []
    description := body.description.getD []
    tech := if truthy body.tech then techTokens (body.tech.getD []) else []
    url := if truthy body.url then body.url.getD [] else []
    image := filename.map uploadRef
    createdAt := env.createdNow }

/-- The handler of `POST /api/projects` (lines 114-136), after the two
middlewares. -/
def createHandler (env : Env) (req : Request) (filename : Option Str) (w : World) : Outcome :=
  let db := readDB w
  if !truthy req.body.title || !truthy req.body.category || !truthy req.body.description then
    { world := w
      response := ⟨400, ResBody.message "Missing required fields"⟩
      trace := [Effect.readDB, Effect.respond 400] }
  else
    let p := newProject env req.body filename
    let db1 := db ++ [p]
    { world := writeDB env db1 w
      response := ⟨201, ResBody.project p⟩
      trace := [Effect.readDB, Effect.writeDB db1, Effect.respond 201] }

/-- The route `POST /api/projects`: `isAuthenticated`, then
`upload.single('image')`, then the handler. -/
def postProjects (env : Env) (req : Request) (w : World) : Outcome :=
  isAuthenticated req w
    (let u := upload env req w
     let out := createHandler env req u.2.1 u.1
     { out with trace := u.2.2 ++ out.trace })

/-- The field assignments of lines 149-155 and 164: a copy of the stored record
in which every truthy supplied field, and the image when a file came with the
request, is overwritten. -/
def updatedProject (old : Project) (body : Body) (filename : Option Str) : Project :=
  let p1 := if truthy body.title then { old with title := body.title.getD [] } else old
  let p2 := if truthy body.category then { p1 with category := body.category.getD [] } else p1
  let p3 := if truthy body.description then
    { p2 with description := body.description.getD [] } else p2
  let p4 := if truthy body.tech then { p3 with tech := techTokens (body.tech.getD []) } else p3
  let p5 := if truthy body.url then { p4 with url := body.url.getD [] } else p4
  match filename with
  | some f => { p5 with image := some (uploadRef f) }
  | none => p5

/-- The handler of `PUT /api/projects/:id` (lines 139-170), after the two
middlewares.  The old image is unlinked inside the `if (req.file)` block, the
snapshot is written afterwards. -/
def updateHandler (env : Env) (req : Request) (filename : Option Str) (w : World) : Outcome :=
  let db := readDB w
  let projectId := parseInt req.paramId
  match findIndex (idMatches projectId) db with
  | none =>
    { world := w
      response := ⟨404, ResBody.message "Project not found"⟩
      trace := [Effect.readDB, Effect.respond 404] }
  | some projectIndex =>
    let old := db.get projectIndex
    let p := updatedProject old req.body filename
    let oldImagePath := old.image
    let doUnlink := filename.isSome && truthy oldImagePath
    let w1 := if doUnlink then
      { w with uploads := unlinkFile (oldImagePath.getD []) w.uploads } else w
    let unlinks := if doUnlink then [Effect.unlink (oldImagePath.getD [])] else []
    let db1 := db.set projectIndex.val p
    { world := writeDB env db1 w1
      response := ⟨200, ResBody.project p⟩
      trace := [Effect.readDB] ++ unlinks ++ [Effect.writeDB db1, Effect.respond 200] }

/-- The route `PUT /api/projects/:id`. -/
def putProject (env : Env) (req : Request) (w : World) : Outcome :=
  isAuthenticated req w
    (let u := upload env req w
     let out := updateHandler env req u.2.1 u.1
     { out with trace := u.2.2 ++ out.trace })

/-- The handler of `DELETE /api/projects/:id` (lines 173-193), after
`isAuthenticated`. -/
def deleteHandler (env : Env) (req : Request) (w : World) : Outcome :=
  let db := readDB w
  let projectId := parseInt req.paramId
  match findIndex (idMatches projectId) db with
  | none =>
    { world := w
      response := ⟨404, ResBody.message "Project not found"⟩
      trace := [Effect.readDB, Effect.respond 404] }
  | some projectIndex =>
    let imagePath := (db.get projectIndex).image
    let doUnlink := truthy imagePath
    let w1 := if doUnlink then
      { w with uploads := unlinkFile (imagePath.getD []) w.uploads } else w
    let unlinks := if doUnlink then [Effect.unlink (imagePath.getD [])] else []
    let db1 := db.eraseIdx projectIndex.val
    { world := writeDB env db1 w1
      response := ⟨204, ResBody.empty⟩
      trace := [Effect.readDB] ++ unlinks ++ [Effect.writeDB db1, Effect.respond 204] }

/-- The route `DELETE /api/projects/:id`: no upload middleware. -/
def deleteProject (env : Env) (req : Request) (w : World) : Outcome :=
  isAuthenticated req w (deleteHandler env req w)

/-! ## Sample data -/

/-- A request body with the three required fields and a tech list. -/
def sampleBody : Body :=
  { title := some "Portfolio A".toList
    category := some "Web".toList
    description := some "desc".toList
    tech := some "Go, React".toList
    url := some [] }

/-- A stored record with an attached image. -/
def sampleProject : Project :=
  { id := 1000
    title := "Old".toList
    category := "Web".toList
    description := "first".toList
    tech := ["Go".toList]
    url := "http://a".toList
    image := some "/uploads/900.png".toList
    createdAt := 1000 }

/-- A world holding the sample record and its image file. -/
def sampleWorld : World :=
  { disk := some [sampleProject]
    uploads := [("/uploads/900.png".toList, [1, 2, 3])] }

/-- An environment in which the snapshot write succeeds. -/
def sampleEnv : Env := { uploadNow := 2000, idNow := 2001, createdNow := 2002, write := WriteOutcome.ok }

/-- A logged-in request that creates the sample project, without image. -/
def createReq : Request :=
  { sessionUser := some "admin".toList, paramId := [], body := sampleBody, file := none }

/-- The same request sent without a session. -/
def anonReq : Request := { createReq with sessionUser := none, paramId := "1000".toList }

/-- An environment whose id clock reads the id of the sample record. -/
def clashEnv : Env := { sampleEnv with idNow := 1000 }

/-- A create request whose title is a single space. -/
def blankTitleReq : Request :=
  { createReq with body := { sampleBody with title := some " ".toList } }

/-- A create request with the title field left empty. -/
def noTitleReq : Request :=
  { createReq with body := { sampleBody with title := some [] } }

/-- The tech list in the words of the specification: the input split on commas,
each token trimmed of white space at both ends, the tokens that are empty
after trimming dropped, the order kept. -/
def techSpec (input : Str) : List Str :=
  ((input.splitOn ',').map
    (fun t => (t.dropWhile isWhiteSpace).rdropWhile isWhiteSpace)).filter (fun t => t ≠ [])

/-- A body that supplies nothing. -/
def emptyBody : Body :=
  { title := none, category := none, description := none, tech := none, url := none }

/-- A logged-in update of record 1000 carrying the sample body, without image. -/
def updateReq : Request := { createReq with paramId := "1000".toList }

/-- A logged-in update of record 1000 that supplies the empty string as tech. -/
def emptyTechReq : Request :=
  { updateReq with body := { emptyBody with tech := some [] } }

/-- A logged-in update of record 1000 that supplies only the title `New`. -/
def titleOnlyReq : Request :=
  { updateReq with body := { emptyBody with title := some "New".toList } }

/-- A logged-in request addressing an id that no record has. -/
def unknownIdReq : Request := { updateReq with paramId := "77".toList, body := emptyBody }

/-- A record without image, stored before the sample record. -/
def firstProject : Project :=
  { id := 999
    title := "First".toList
    category := "Web".toList
    description := "zero".toList
    tech := []
    url := []
    image := none
    createdAt := 999 }

/-- A record with an image, stored after the sample record. -/
def thirdProject : Project :=
  { id := 1001
    title := "Third".toList
    category := "App".toList
    description := "second".toList
    tech := ["Lua".toList]
    url := []
    image := some "/uploads/950.png".toList
    createdAt := 1001 }

/-- A world with three records, the sample record in the middle. -/
def threeWorld : World :=
  { disk := some [firstProject, sampleProject, thirdProject]
    uploads := [("/uploads/900.png".toList, [1, 2, 3]), ("/uploads/950.png".toList, [4])] }

/-- A record whose id is `2 ^ 53`. -/
def bigProject : Project := { thirdProject with id := 9007199254740992, image := none }

/-- A world holding the first record and the record of id `2 ^ 53`. -/
def bigWorld : World := { disk := some [firstProject, bigProject], uploads := [] }

/-- A logged-in request whose route parameter is the numeral of `2 ^ 53 + 1`,
which `parseInt` reads as `2 ^ 53`. -/
def bigReq : Request :=
  { unknownIdReq with paramId := "9007199254740993".toList }

/-- An environment in which the snapshot write throws and leaves the file as it
was in the three-record world. -/
def failEnvThree : Env := { sampleEnv with write := WriteOutcome.fails threeWorld.disk }

/-- An environment in which the snapshot write throws and leaves the file as it
was in the sample world. -/
def failEnv : Env := { sampleEnv with write := WriteOutcome.fails sampleWorld.disk }

/-- An image file sent with a request. -/
def samplePart : FilePart := { ext := ".png".toList, bytes := [9] }

/-- A logged-in create request with an empty title and an image file. -/
def noTitleFileReq : Request := { noTitleReq with file := some samplePart }

/-- A logged-in update of the unknown id 77 with an image file. -/
def unknownIdFileReq : Request := { unknownIdReq with file := some samplePart }

/-- A logged-in update of record 1000 that brings a new image. -/
def imageUpdateReq : Request := { updateReq with body := emptyBody, file := some samplePart }

/-- A logged-in update of record 1000 whose tech field is a single comma. -/
def commaTechReq : Request :=
  { updateReq with body := { emptyBody with tech := some ",".toList } }

/-- An effect is the unlink of an asset. -/
def isUnlink : Effect → Bool
  | Effect.unlink _ => true
  | _ => false

/-- An effect is the snapshot write. -/
def isWriteDB : Effect → Bool
  | Effect.writeDB _ => true
  | _ => false

/-- Some effect satisfying `p` is issued before some effect satisfying `q`. -/
def issuedBefore (p q : Effect → Bool) : List Effect → Bool
  | [] => false
  | e :: t => (p e && t.any q) || issuedBefore p q t

/-! ## Predicates used in the statements -/

/-- The request passes the validation of line 118: title, category and
description are all truthy. -/
def hasRequired (body : Body) : Prop :=
  truthy body.title = true ∧ truthy body.category = true ∧ truthy body.description = true

instance hasRequiredDecidable (body : Body) : Decidable (hasRequired body) :=
  inferInstanceAs (Decidable (_ ∧ _ ∧ _))

/-- A string has no white space at either end. -/
def Trimmed (t : Str) : Prop :=
  (∀ c, t.head? = some c → isWhiteSpace c = false) ∧
  (∀ c, t.getLast? = some c → isWhiteSpace c = false)

/-! ## Lemmas on `parseInt` -/

theorem digitChar_isDigit : ∀ k, k < 10 →
    isDigit (Nat.digitChar k) = true ∧ (Nat.digitChar k).toNat - 48 = k := by
  decide

theorem isDigit_not_special (c : Char) (h : isDigit c = true) :
    isWhiteSpace c = false ∧ c ≠ '-' ∧ c ≠ '+' := by
  unfold isDigit at h
  simp only [Bool.and_eq_true, decide_eq_true_eq] at h
  refine ⟨?_, ?_, ?_⟩
  · unfold isWhiteSpace
    simp only [Bool.or_eq_false_iff, Bool.and_eq_false_imp, beq_eq_false_iff_ne, ne_eq,
      decide_eq_true_eq, decide_eq_false_iff_not]
    omega
  · rintro rfl
    revert h
    decide
  · rintro rfl
    revert h
    decide

theorem toDigitsCore_spec : ∀ (fuel n : Nat) (ds : Str), n < fuel →
    (∀ c ∈ ds, isDigit c = true) →
    (∀ c ∈ Nat.toDigitsCore 10 fuel n ds, isDigit c = true) ∧
    Nat.toDigitsCore 10 fuel n ds ≠ [] ∧
    digitsValue (Nat.toDigitsCore 10 fuel n ds) =
      ds.foldl (fun acc c => acc * 10 + (c.toNat - 48)) n
  | 0, n, _, h, _ => absurd h (Nat.not_lt_zero n)
  | fuel + 1, n, ds, h, hds => by
    have hd := digitChar_isDigit (n % 10) (Nat.mod_lt n (by decide))
    have hds1 : ∀ c ∈ Nat.digitChar (n % 10) :: ds, isDigit c = true := by
      intro c hc
      rcases List.mem_cons.mp hc with rfl | hc
      · exact hd.1
      · exact hds c hc
    rw [Nat.toDigitsCore]
    by_cases h0 : n / 10 = 0
    · simp only [h0, if_true]
      refine ⟨hds1, by simp, ?_⟩
      have hn : n % 10 = n := Nat.mod_eq_of_lt (by omega)
      simp only [digitsValue, List.foldl_cons, Nat.zero_mul, Nat.zero_add]
      rw [hd.2, hn]
    · simp only [h0, if_false]
      obtain ⟨h1, h2, h3⟩ := toDigitsCore_spec fuel (n / 10) (Nat.digitChar (n % 10) :: ds)
        (by omega) hds1
      refine ⟨h1, h2, ?_⟩
      rw [h3, List.foldl_cons, hd.2]
      congr 1
      omega

theorem toDigits_spec (n : Nat) :
    (∀ c ∈ Nat.toDigits 10 n, isDigit c = true) ∧ Nat.toDigits 10 n ≠ [] ∧
    digitsValue (Nat.toDigits 10 n) = n := by
  have := toDigitsCore_spec (n + 1) n [] (Nat.lt_succ_self n) (by simp)
  simpa [Nat.toDigits] using this

theorem toNumber_small (n : Nat) (h : n < 2 ^ 53) : toNumber n = some n := by
  unfold toNumber
  rw [if_pos h]

theorem parseInt_digits (z : Str) (hz : ∀ c ∈ z, isDigit c = true) (hne : z ≠ [])
    (hsmall : digitsValue z < 2 ^ 53) :
    parseInt z = some (digitsValue z : Int) ∧
    parseInt ('-' :: z) = some (- (digitsValue z : Int)) := by
  obtain ⟨c, cs, rfl⟩ := List.exists_cons_of_ne_nil hne
  have hc := isDigit_not_special c (hz c (List.mem_cons_self c cs))
  have htake : List.takeWhile isDigit (c :: cs) = c :: cs :=
    List.takeWhile_eq_self_iff.mpr hz
  have hminus : isWhiteSpace '-' = false := by decide
  have hnum := toNumber_small _ hsmall
  constructor
  · simp only [parseInt, List.dropWhile_cons, hc.1, List.head?_cons, Option.some.injEq,
      hc.2.1, hc.2.2, or_self, if_false, htake, decide_False, Bool.false_eq_true, hnum]
    simp
  · simp only [parseInt, List.dropWhile_cons, hminus, List.head?_cons, true_or, if_true,
      List.tail_cons, htake, decide_True, Bool.false_eq_true, if_false, hnum]
    simp

/-- Every integer id below `2 ^ 53` in size is addressed by its decimal
rendering. -/
theorem parseInt_decimal (id : Int) (hsmall : id.natAbs < 2 ^ 53) :
    parseInt (decimal id) = some id := by
  obtain ⟨h1, h2, h3⟩ := toDigits_spec id.natAbs
  obtain ⟨ha, hb⟩ := parseInt_digits _ h1 h2 (by rw [h3]; exact hsmall)
  unfold decimal
  by_cases hneg : id < 0
  · rw [if_pos hneg, hb, h3]
    congr 1
    omega
  · rw [if_neg hneg, ha, h3]
    congr 1
    omega

/-- Past `2 ^ 53` the digits are rounded to the nearest double: the odd number
`2 ^ 53 + 1` and its two neighbours are read as shown. -/
theorem parseInt_rounds :
    parseInt "9007199254740993".toList = some 9007199254740992 ∧
    parseInt "9007199254740995".toList = some 9007199254740996 ∧
    parseInt "9007199254740992".toList = some 9007199254740992 ∧
    parseInt "-9007199254740993".toList = some (-9007199254740992) ∧
    parseInt "18014398509481985".toList = some 18014398509481984 ∧
    parseInt "18014398509481987".toList = some 18014398509481988 := by
  decide

/-! ## Lemmas on strings -/

theorem split_eq_splitOn (s : Str) : split s = s.splitOn ',' := by
  induction s with
  | nil => simp [split, List.splitOn, List.splitOnP_nil]
  | cons c cs ih =>
    simp only [List.splitOn] at ih ⊢
    rw [List.splitOnP_cons, split, ih]
    by_cases hc : c = ','
    · simp [hc]
    · simp only [hc, if_false, beq_iff_eq]
      cases h : List.splitOnP (fun x => x == ',') cs with
      | nil => exact absurd h (List.splitOnP_ne_nil _ _)
      | cons t ts => simp [List.modifyHead]

theorem head?_dropWhile_clean (p : Char → Bool) (l : Str) (c : Char)
    (h : (l.dropWhile p).head? = some c) : p c = false := by
  have := List.head?_dropWhile_not p l
  rw [h] at this
  exact this

theorem trim_trimmed (s : Str) : Trimmed (trim s) := by
  constructor
  · intro c hc
    unfold trim at hc
    have hsuf : List.dropWhile isWhiteSpace (s.dropWhile isWhiteSpace).reverse
        <:+ (s.dropWhile isWhiteSpace).reverse := List.dropWhile_suffix _
    have hpre := hsuf.reverse
    rw [List.reverse_reverse] at hpre
    obtain ⟨r, hr⟩ := hpre
    have : (s.dropWhile isWhiteSpace).head? = some c := by
      rw [← hr, List.head?_append, hc]; rfl
    exact head?_dropWhile_clean _ _ _ this
  · intro c hc
    unfold trim at hc
    rw [List.getLast?_reverse] at hc
    exact head?_dropWhile_clean _ _ _ hc

theorem techTokens_clean (s : Str) : ∀ t ∈ techTokens s, t ≠ [] ∧ Trimmed t := by
  intro t ht
  unfold techTokens at ht
  rw [List.mem_filter, List.mem_map] at ht
  obtain ⟨⟨a, -, rfl⟩, h2⟩ := ht
  refine ⟨?_, trim_trimmed a⟩
  intro h
  rw [h] at h2
  simp [truthy] at h2

theorem truthy_eq_true {o : Option Str} : truthy o = true ↔ ∃ s, o = some s ∧ s ≠ [] := by
  cases o with
  | none => simp [truthy]
  | some s => cases s <;> simp [truthy]

theorem truthy_some (s : Str) : truthy (some s) = decide (s ≠ []) := by
  cases s <;> simp [truthy]

/-! ## Lemmas on `findIndex` -/

theorem findIndex_none {pred : Project → Bool} :
    ∀ {ps : List Project}, findIndex pred ps = none ↔ ∀ x ∈ ps, pred x = false
  | [] => by simp [findIndex]
  | x :: xs => by
    have ih := @findIndex_none pred xs
    by_cases hx : pred x = true
    · simp [findIndex, hx]
    · simp [findIndex, hx, ih]

theorem findIndex_some {pred : Project → Bool} :
    ∀ {ps : List Project} {i : Fin ps.length}, findIndex pred ps = some i →
      pred (ps.get i) = true ∧ ∀ j : Fin ps.length, j.val < i.val → pred (ps.get j) = false
  | [], i, _ => i.elim0
  | x :: xs, i, h => by
    by_cases hx : pred x = true
    · simp only [findIndex, hx, if_true, Option.some.injEq] at h
      subst h
      exact ⟨hx, fun j hj => absurd hj (Nat.not_lt_zero _)⟩
    · rw [findIndex, if_neg hx] at h
      cases hk : findIndex pred xs with
      | none => rw [hk] at h; exact absurd h (by simp)
      | some k =>
      rw [hk, Option.map_some', Option.some.injEq] at h
      subst h
      obtain ⟨h1, h2⟩ := findIndex_some hk
      refine ⟨h1, ?_⟩
      intro j hj
      rcases j with ⟨_ | j, hjlt⟩
      · simpa using hx
      · exact h2 ⟨j, Nat.lt_of_succ_lt_succ hjlt⟩ (Nat.lt_of_succ_lt_succ hj)

theorem findIndex_of_mem (pred : Project → Bool) {ps : List Project} {x : Project}
    (hx : x ∈ ps) (hp : pred x = true) : ∃ i, findIndex pred ps = some i := by
  cases h : findIndex pred ps with
  | some i => exact ⟨i, rfl⟩
  | none =>
    rw [findIndex_none] at h
    rw [h x hx] at hp
    exact absurd hp (by decide)

theorem idMatches_some (id : Int) (p : Project) : idMatches (some id) p = decide (p.id = id) := by
  simp [idMatches]

theorem eraseIdx_findIndex (id : Int) :
    ∀ (ps : List Project) (i : Fin ps.length), (ps.map Project.id).Nodup →
      findIndex (idMatches (some id)) ps = some i →
      ps.eraseIdx i.val = ps.filter (fun q => decide (q.id ≠ id))
  | [], i, _, _ => i.elim0
  | x :: xs, i, hnd, h => by
    rw [List.map_cons, List.nodup_cons] at hnd
    by_cases hx : x.id = id
    · simp only [findIndex, idMatches_some, hx, decide_True, if_true, Option.some.injEq] at h
      subst h
      have hall : ∀ q ∈ xs, q.id ≠ id := by
        intro q hq hqid
        exact hnd.1 (List.mem_map.mpr ⟨q, hq, by rw [hqid, hx]⟩)
      simp only [List.eraseIdx_cons_zero]
      rw [List.filter_cons_of_neg (by simp [hx])]
      symm
      rw [List.filter_eq_self]
      intro q hq
      simpa using hall q hq
    · rw [findIndex, if_neg (by simp [idMatches_some, hx])] at h
      cases hk : findIndex (idMatches (some id)) xs with
      | none => rw [hk] at h; exact absurd h (by simp)
      | some k =>
      rw [hk, Option.map_some', Option.some.injEq] at h
      subst h
      have ih := eraseIdx_findIndex id xs k hnd.2 hk
      simp only [Fin.val_succ, List.eraseIdx_cons_succ]
      rw [List.filter_cons_of_pos (by simp [hx]), ih]

/-! ## The routes, case by case -/

theorem upload_disk (env : Env) (req : Request) (w : World) :
    (upload env req w).1.disk = w.disk := by
  unfold upload; cases req.file <;> rfl

theorem readDB_upload (env : Env) (req : Request) (w : World) :
    readDB (upload env req w).1 = readDB w := by
  unfold readDB; rw [upload_disk]

theorem upload_none (env : Env) (req : Request) (w : World) (h : req.file = none) :
    upload env req w = (w, none, []) := by
  unfold upload; rw [h]

theorem upload_some (env : Env) (req : Request) (w : World) (f : FilePart)
    (h : req.file = some f) :
    upload env req w =
      ({ w with uploads :=
          storeFile (uploadRef (Nat.toDigits 10 env.uploadNow ++ f.ext)) f.bytes w.uploads },
        some (Nat.toDigits 10 env.uploadNow ++ f.ext),
        [Effect.storeUpload (uploadRef (Nat.toDigits 10 env.uploadNow ++ f.ext))]) := by
  unfold upload; rw [h]

theorem upload_trace_no_write (env : Env) (req : Request) (w : World) (d : List Project) :
    Effect.writeDB d ∉ (upload env req w).2.2 := by
  unfold upload; cases req.file <;> simp

theorem writeDB_uploads (env : Env) (data : List Project) (w : World) :
    (writeDB env data w).uploads = w.uploads := by
  unfold writeDB; cases env.write <;> rfl

theorem writeDB_ok (env : Env) (data : List Project) (w : World)
    (h : env.write = WriteOutcome.ok) : (writeDB env data w).disk = some data := by
  unfold writeDB; rw [h]

theorem writeDB_fails (env : Env) (data : List Project) (w : World)
    (r : Option (List Project)) (h : env.write = WriteOutcome.fails r) :
    (writeDB env data w).disk = r := by
  unfold writeDB; rw [h]

theorem unauthorized (req : Request) (w : World) (next : Outcome)
    (h : req.sessionUser = none) :
    isAuthenticated req w next =
      { world := w
        response := ⟨401, ResBody.message "Unauthorized: You must be logged in."⟩
        trace := [Effect.respond 401] } := by
  unfold isAuthenticated; rw [h]

theorem authorized (req : Request) (w : World) (next : Outcome) (u : Str)
    (h : req.sessionUser = some u) : isAuthenticated req w next = next := by
  unfold isAuthenticated; rw [h]

theorem createHandler_rejected (env : Env) (req : Request) (fn : Option Str) (w : World)
    (h : ¬ hasRequired req.body) :
    createHandler env req fn w =
      { world := w
        response := ⟨400, ResBody.message "Missing required fields"⟩
        trace := [Effect.readDB, Effect.respond 400] } := by
  unfold createHandler
  have : (!truthy req.body.title || !truthy req.body.category ||
      !truthy req.body.description) = true := by
    unfold hasRequired at h
    revert h
    cases truthy req.body.title <;> cases truthy req.body.category <;>
      cases truthy req.body.description <;> simp
  simp only [this, if_true]

theorem createHandler_created (env : Env) (req : Request) (fn : Option Str) (w : World)
    (h : hasRequired req.body) :
    createHandler env req fn w =
      { world := writeDB env (readDB w ++ [newProject env req.body fn]) w
        response := ⟨201, ResBody.project (newProject env req.body fn)⟩
        trace := [Effect.readDB, Effect.writeDB (readDB w ++ [newProject env req.body fn]),
          Effect.respond 201] } := by
  unfold createHandler
  obtain ⟨h1, h2, h3⟩ := h
  simp [h1, h2, h3]

theorem updateHandler_notFound (env : Env) (req : Request) (fn : Option Str) (w : World)
    (h : findIndex (idMatches (parseInt req.paramId)) (readDB w) = none) :
    updateHandler env req fn w =
      { world := w
        response := ⟨404, ResBody.message "Project not found"⟩
        trace := [Effect.readDB, Effect.respond 404] } := by
  simp only [updateHandler, h]

theorem updateHandler_found (env : Env) (req : Request) (fn : Option Str) (w : World)
    (i : Fin (readDB w).length)
    (h : findIndex (idMatches (parseInt req.paramId)) (readDB w) = some i) :
    updateHandler env req fn w =
      { world := writeDB env
          ((readDB w).set i.val (updatedProject ((readDB w).get i) req.body fn))
          (if (fn.isSome && truthy ((readDB w).get i).image) = true then
            { w with uploads := unlinkFile (((readDB w).get i).image.getD []) w.uploads }
           else w)
        response := ⟨200, ResBody.project (updatedProject ((readDB w).get i) req.body fn)⟩
        trace := [Effect.readDB] ++
          (if (fn.isSome && truthy ((readDB w).get i).image) = true then
            [Effect.unlink (((readDB w).get i).image.getD [])] else []) ++
          [Effect.writeDB ((readDB w).set i.val (updatedProject ((readDB w).get i) req.body fn)),
            Effect.respond 200] } := by
  simp only [updateHandler, h]

theorem deleteHandler_notFound (env : Env) (req : Request) (w : World)
    (h : findIndex (idMatches (parseInt req.paramId)) (readDB w) = none) :
    deleteHandler env req w =
      { world := w
        response := ⟨404, ResBody.message "Project not found"⟩
        trace := [Effect.readDB, Effect.respond 404] } := by
  simp only [deleteHandler, h]

theorem deleteHandler_found (env : Env) (req : Request) (w : World)
    (i : Fin (readDB w).length)
    (h : findIndex (idMatches (parseInt req.paramId)) (readDB w) = some i) :
    deleteHandler env req w =
      { world := writeDB env ((readDB w).eraseIdx i.val)
          (if truthy ((readDB w).get i).image = true then
            { w with uploads := unlinkFile (((readDB w).get i).image.getD []) w.uploads }
           else w)
        response := ⟨204, ResBody.empty⟩
        trace := [Effect.readDB] ++
          (if truthy ((readDB w).get i).image = true then
            [Effect.unlink (((readDB w).get i).image.getD [])] else []) ++
          [Effect.writeDB ((readDB w).eraseIdx i.val), Effect.respond 204] } := by
  simp only [deleteHandler, h]

theorem techSpec_nil : techSpec [] = [] := by decide

theorem techTokens_eq_techSpec (s : Str) : techTokens s = techSpec s := by
  unfold techTokens techSpec
  rw [split_eq_splitOn]
  have h1 : trim = fun t => (t.dropWhile isWhiteSpace).rdropWhile isWhiteSpace := by
    funext t; rfl
  have h2 : (fun t : Str => truthy (some t)) = fun t => decide (t ≠ []) := by
    funext t; exact truthy_some t
  rw [h1, h2]

theorem updatedProject_tech (old : Project) (body : Body) (fn : Option Str) :
    (updatedProject old body fn).tech =
      if truthy body.tech = true then techTokens (body.tech.getD []) else old.tech := by
  unfold updatedProject
  cases fn <;> cases truthy body.title <;> cases truthy body.category <;>
    cases truthy body.description <;> cases truthy body.tech <;> cases truthy body.url <;> rfl

theorem updatedProject_title (old : Project) (body : Body) (fn : Option Str) :
    (updatedProject old body fn).title =
      if truthy body.title = true then body.title.getD [] else old.title := by
  unfold updatedProject
  cases fn <;> cases truthy body.title <;> cases truthy body.category <;>
    cases truthy body.description <;> cases truthy body.tech <;> cases truthy body.url <;> rfl

theorem updatedProject_category (old : Project) (body : Body) (fn : Option Str) :
    (updatedProject old body fn).category =
      if truthy body.category = true then body.category.getD [] else old.category := by
  unfold updatedProject
  cases fn <;> cases truthy body.title <;> cases truthy body.category <;>
    cases truthy body.description <;> cases truthy body.tech <;> cases truthy body.url <;> rfl

theorem updatedProject_description (old : Project) (body : Body) (fn : Option Str) :
    (updatedProject old body fn).description =
      if truthy body.description = true then body.description.getD [] else old.description := by
  unfold updatedProject
  cases fn <;> cases truthy body.title <;> cases truthy body.category <;>
    cases truthy body.description <;> cases truthy body.tech <;> cases truthy body.url <;> rfl

theorem updatedProject_url (old : Project) (body : Body) (fn : Option Str) :
    (updatedProject old body fn).url =
      if truthy body.url = true then body.url.getD [] else old.url := by
  unfold updatedProject
  cases fn <;> cases truthy body.title <;> cases truthy body.category <;>
    cases truthy body.description <;> cases truthy body.tech <;> cases truthy body.url <;> rfl

theorem truthy_getD_ne_nil {o : Option Str} (h : truthy o = true) : o.getD [] ≠ [] := by
  obtain ⟨s, rfl, hs⟩ := truthy_eq_true.mp h
  exact hs

theorem postProjects_rejected (env : Env) (req : Request) (w : World) (u : Str)
    (hauth : req.sessionUser = some u) (h : ¬ hasRequired req.body) :
    postProjects env req w =
      { world := (upload env req w).1
        response := ⟨400, ResBody.message "Missing required fields"⟩
        trace := (upload env req w).2.2 ++ [Effect.readDB, Effect.respond 400] } := by
  rw [postProjects, authorized req w _ u hauth]
  simp only [createHandler_rejected _ _ _ _ h]

theorem postProjects_created (env : Env) (req : Request) (w : World) (u : Str)
    (hauth : req.sessionUser = some u) (h : hasRequired req.body) :
    postProjects env req w =
      { world := writeDB env (readDB w ++ [newProject env req.body (upload env req w).2.1])
          (upload env req w).1
        response := ⟨201, ResBody.project (newProject env req.body (upload env req w).2.1)⟩
        trace := (upload env req w).2.2 ++
          [Effect.readDB,
            Effect.writeDB (readDB w ++ [newProject env req.body (upload env req w).2.1]),
            Effect.respond 201] } := by
  rw [postProjects, authorized req w _ u hauth]
  simp only [createHandler_created _ _ _ _ h, readDB_upload]

theorem putProject_notFound (env : Env) (req : Request) (w : World) (u : Str)
    (hauth : req.sessionUser = some u)
    (h : findIndex (idMatches (parseInt req.paramId)) (readDB w) = none) :
    putProject env req w =
      { world := (upload env req w).1
        response := ⟨404, ResBody.message "Project not found"⟩
        trace := (upload env req w).2.2 ++ [Effect.readDB, Effect.respond 404] } := by
  rw [putProject, authorized req w _ u hauth]
  have h1 : findIndex (idMatches (parseInt req.paramId)) (readDB (upload env req w).1) = none := by
    rw [findIndex_none] at h ⊢
    rw [readDB_upload]
    exact h
  simp only [updateHandler_notFound _ _ _ _ h1]

theorem putProject_found (env : Env) (req : Request) (w : World) (u : Str)
    (hauth : req.sessionUser = some u) (i : Fin (readDB w).length)
    (h : findIndex (idMatches (parseInt req.paramId)) (readDB w) = some i) :
    putProject env req w =
      { world := writeDB env
          ((readDB w).set i.val
            (updatedProject ((readDB w).get i) req.body (upload env req w).2.1))
          (if ((upload env req w).2.1.isSome && truthy ((readDB w).get i).image) = true then
            { (upload env req w).1 with
              uploads := unlinkFile (((readDB w).get i).image.getD [])
                (upload env req w).1.uploads }
           else (upload env req w).1)
        response := ⟨200, ResBody.project
          (updatedProject ((readDB w).get i) req.body (upload env req w).2.1)⟩
        trace := (upload env req w).2.2 ++ ([Effect.readDB] ++
          (if ((upload env req w).2.1.isSome && truthy ((readDB w).get i).image) = true then
            [Effect.unlink (((readDB w).get i).image.getD [])] else []) ++
          [Effect.writeDB ((readDB w).set i.val
              (updatedProject ((readDB w).get i) req.body (upload env req w).2.1)),
            Effect.respond 200]) } := by
  rw [putProject, authorized req w _ u hauth]
  cases hf : req.file with
  | none =>
    rw [upload_none env req w hf]
    exact congrArg (fun o : Outcome => { o with trace := [] ++ o.trace })
      (updateHandler_found env req none w i h)
  | some f =>
    rw [upload_some env req w f hf]
    exact congrArg
      (fun o : Outcome => { o with trace :=
        [Effect.storeUpload (uploadRef (Nat.toDigits 10 env.uploadNow ++ f.ext))] ++ o.trace })
      (updateHandler_found env req (some (Nat.toDigits 10 env.uploadNow ++ f.ext))
        { w with uploads :=
          storeFile (uploadRef (Nat.toDigits 10 env.uploadNow ++ f.ext)) f.bytes w.uploads } i h)

theorem deleteProject_notFound (env : Env) (req : Request) (w : World) (u : Str)
    (hauth : req.sessionUser = some u)
    (h : findIndex (idMatches (parseInt req.paramId)) (readDB w) = none) :
    deleteProject env req w =
      { world := w
        response := ⟨404, ResBody.message "Project not found"⟩
        trace := [Effect.readDB, Effect.respond 404] } := by
  rw [deleteProject, authorized req w _ u hauth, deleteHandler_notFound _ _ _ h]

theorem deleteProject_found (env : Env) (req : Request) (w : World) (u : Str)
    (hauth : req.sessionUser = some u) (i : Fin (readDB w).length)
    (h : findIndex (idMatches (parseInt req.paramId)) (readDB w) = some i) :
    deleteProject env req w =
      { world := writeDB env ((readDB w).eraseIdx i.val)
          (if truthy ((readDB w).get i).image = true then
            { w with uploads := unlinkFile (((readDB w).get i).image.getD []) w.uploads }
           else w)
        response := ⟨204, ResBody.empty⟩
        trace := [Effect.readDB] ++
          (if truthy ((readDB w).get i).image = true then
            [Effect.unlink (((readDB w).get i).image.getD [])] else []) ++
          [Effect.writeDB ((readDB w).eraseIdx i.val), Effect.respond 204] } := by
  rw [deleteProject, authorized req w _ u hauth, deleteHandler_found _ _ _ i h]

/-! ## Claims -/

/-- C1 (counterexample): the snapshot holds one record with id 1000 and the clock
reads 1000 when the create handler runs; the new record receives id 1000, the id
of the stored record, and the snapshot written back no longer has pairwise
distinct ids. -/
theorem c1_clock_collision :
    ((readDB sampleWorld).map Project.id).Nodup ∧
    (postProjects clashEnv createReq sampleWorld).response =
      ⟨201, ResBody.project (newProject clashEnv sampleBody none)⟩ ∧
    (∃ q ∈ readDB sampleWorld, q.id = (newProject clashEnv sampleBody none).id) ∧
    (postProjects clashEnv createReq sampleWorld).world.disk =
      some [sampleProject, newProject clashEnv sampleBody none] ∧
    ¬ ([sampleProject, newProject clashEnv sampleBody none].map Project.id).Nodup := by
  decide

/-- C1 (amended): when the clock reading differs from the id of every record in
the snapshot, the create route assigns that reading as id, the new id differs
from every id already in the snapshot, the snapshot written is the old one with
the new record appended, and pairwise-distinct ids stay pairwise distinct. -/
theorem c1_fresh_id_when_clock_unused (env : Env) (req : Request) (w : World) (u : Str)
    (hauth : req.sessionUser = some u) (hreq : hasRequired req.body)
    (hclock : ∀ q ∈ readDB w, q.id ≠ (env.idNow : Int)) :
    ∃ p, (postProjects env req w).response = ⟨201, ResBody.project p⟩ ∧
      p.id = (env.idNow : Int) ∧
      (∀ q ∈ readDB w, q.id ≠ p.id) ∧
      (env.write = WriteOutcome.ok →
        (postProjects env req w).world.disk = some (readDB w ++ [p])) ∧
      (((readDB w).map Project.id).Nodup → ((readDB w ++ [p]).map Project.id).Nodup) := by
  refine ⟨newProject env req.body (upload env req w).2.1, ?_, rfl, hclock, ?_, ?_⟩
  · rw [postProjects_created env req w u hauth hreq]
  · intro hw
    rw [postProjects_created env req w u hauth hreq]
    exact writeDB_ok _ _ _ hw
  · intro hnd
    rw [List.map_append, List.nodup_append]
    refine ⟨hnd, by simp, ?_⟩
    intro a ha hb
    simp only [List.map_cons, List.map_nil, List.mem_singleton] at hb
    obtain ⟨q, hq, rfl⟩ := List.mem_map.mp ha
    exact hclock q hq hb

/-- C1 (witness): the sample snapshot (one record, id 1000) and a clock reading
2001. -/
theorem c1_fresh_id_witness :
    createReq.sessionUser = some "admin".toList ∧ hasRequired createReq.body ∧
    (∀ q ∈ readDB sampleWorld, q.id ≠ (sampleEnv.idNow : Int)) ∧
    ∃ p, (postProjects sampleEnv createReq sampleWorld).response = ⟨201, ResBody.project p⟩ ∧
      p.id = (sampleEnv.idNow : Int) ∧
      (∀ q ∈ readDB sampleWorld, q.id ≠ p.id) ∧
      (sampleEnv.write = WriteOutcome.ok →
        (postProjects sampleEnv createReq sampleWorld).world.disk =
          some (readDB sampleWorld ++ [p])) ∧
      (((readDB sampleWorld).map Project.id).Nodup →
        ((readDB sampleWorld ++ [p]).map Project.id).Nodup) :=
  ⟨rfl, by decide, by decide,
    c1_fresh_id_when_clock_unused sampleEnv createReq sampleWorld "admin".toList rfl
      (by decide) (by decide)⟩

/-- C2 (counterexample): a create request whose title is one space (empty after
trimming) is answered 201 and its record, title untrimmed, is appended to the
snapshot. -/
theorem c2_blank_title_accepted :
    trim (blankTitleReq.body.title.getD []) = [] ∧
    (postProjects sampleEnv blankTitleReq sampleWorld).response =
      ⟨201, ResBody.project (newProject sampleEnv blankTitleReq.body none)⟩ ∧
    (newProject sampleEnv blankTitleReq.body none).title = " ".toList ∧
    (postProjects sampleEnv blankTitleReq sampleWorld).world.disk =
      some [sampleProject, newProject sampleEnv blankTitleReq.body none] := by
  decide

/-- C2 (amended): a create request in which title, category or description is
absent or the empty string (nothing is trimmed on the server) never changes the
snapshot and never reaches the snapshot write, and when the session is
authenticated the answer is 400 "Missing required fields". -/
theorem c2_missing_required_rejected (env : Env) (req : Request) (w : World)
    (h : truthy req.body.title = false ∨ truthy req.body.category = false ∨
      truthy req.body.description = false) :
    (postProjects env req w).world.disk = w.disk ∧
    (∀ d, Effect.writeDB d ∉ (postProjects env req w).trace) ∧
    (∀ u, req.sessionUser = some u →
      (postProjects env req w).response = ⟨400, ResBody.message "Missing required fields"⟩) := by
  have hnot : ¬ hasRequired req.body := by
    rintro ⟨h1, h2, h3⟩
    rcases h with h | h | h
    · rw [h1] at h; exact absurd h (by decide)
    · rw [h2] at h; exact absurd h (by decide)
    · rw [h3] at h; exact absurd h (by decide)
  cases hs : req.sessionUser with
  | none =>
    rw [postProjects, unauthorized req w _ hs]
    exact ⟨rfl, by simp, fun u hu => absurd hu (by simp)⟩
  | some u =>
    rw [postProjects_rejected env req w u hs hnot]
    refine ⟨upload_disk env req w, ?_, fun _ _ => rfl⟩
    intro d hd
    rcases List.mem_append.mp hd with hd | hd
    · exact upload_trace_no_write env req w d hd
    · simp at hd

/-- C2 (witness): the sample create request with the title field empty. -/
theorem c2_missing_required_witness :
    (truthy noTitleReq.body.title = false ∨ truthy noTitleReq.body.category = false ∨
      truthy noTitleReq.body.description = false) ∧
    (postProjects sampleEnv noTitleReq sampleWorld).world.disk = sampleWorld.disk ∧
    (∀ d, Effect.writeDB d ∉ (postProjects sampleEnv noTitleReq sampleWorld).trace) ∧
    (∀ u, noTitleReq.sessionUser = some u →
      (postProjects sampleEnv noTitleReq sampleWorld).response =
        ⟨400, ResBody.message "Missing required fields"⟩) :=
  ⟨Or.inl rfl, c2_missing_required_rejected sampleEnv noTitleReq sampleWorld (Or.inl rfl)⟩

/-- C3 (counterexample): an update that supplies the empty string as tech for a
record whose tech list is `["Go"]` stores and returns the record with tech still
`["Go"]`, whereas splitting, trimming and filtering the empty input gives the
empty list. -/
theorem c3_update_empty_tech_keeps_old :
    emptyTechReq.body.tech = some [] ∧
    techSpec [] = [] ∧
    (putProject sampleEnv emptyTechReq sampleWorld).response =
      ⟨200, ResBody.project sampleProject⟩ ∧
    (putProject sampleEnv emptyTechReq sampleWorld).world.disk = some [sampleProject] ∧
    sampleProject.tech = ["Go".toList] ∧
    sampleProject.tech ≠ techSpec [] := by
  decide

/-- C3 (amended): on create, for every tech input (absent counts as the empty
string), and on update, for every non-empty tech input, the tech field of the
record returned and written to the snapshot is the input split on commas, each
token trimmed, the empty tokens dropped, in the original order; every such
token is non-empty and has no white space at either end; an absent or empty
input on create gives the empty list. -/
theorem c3_tech_tokens (env : Env) (req : Request) (w : World) (u : Str)
    (hauth : req.sessionUser = some u) :
    (hasRequired req.body →
      ∃ p, (postProjects env req w).response = ⟨201, ResBody.project p⟩ ∧
        (env.write = WriteOutcome.ok →
          (postProjects env req w).world.disk = some (readDB w ++ [p])) ∧
        p.tech = techSpec (req.body.tech.getD []) ∧
        (req.body.tech = none ∨ req.body.tech = some [] → p.tech = [])) ∧
    (∀ (i : Fin (readDB w).length) (s : Str),
      findIndex (idMatches (parseInt req.paramId)) (readDB w) = some i →
      req.body.tech = some s → s ≠ [] →
      ∃ p, (putProject env req w).response = ⟨200, ResBody.project p⟩ ∧
        (env.write = WriteOutcome.ok →
          (putProject env req w).world.disk = some ((readDB w).set i.val p)) ∧
        p.tech = techSpec s) ∧
    (∀ s, ∀ t ∈ techSpec s, t ≠ [] ∧ Trimmed t) := by
  refine ⟨?_, ?_, ?_⟩
  · intro hreq
    refine ⟨newProject env req.body (upload env req w).2.1, ?_, ?_, ?_, ?_⟩
    · rw [postProjects_created env req w u hauth hreq]
    · intro hw
      rw [postProjects_created env req w u hauth hreq]
      exact writeDB_ok _ _ _ hw
    · cases ht : req.body.tech with
      | none => simp [newProject, ht, truthy, techSpec_nil]
      | some s =>
        cases s with
        | nil => simp [newProject, ht, truthy, techSpec_nil]
        | cons c cs => simp [newProject, ht, truthy, techTokens_eq_techSpec]
    · rintro (ht | ht) <;> simp [newProject, ht, truthy]
  · intro i s hi hs hne
    refine ⟨updatedProject ((readDB w).get i) req.body (upload env req w).2.1, ?_, ?_, ?_⟩
    · rw [putProject_found env req w u hauth i hi]
    · intro hw
      rw [putProject_found env req w u hauth i hi]
      exact writeDB_ok _ _ _ hw
    · have ht : truthy req.body.tech = true := truthy_eq_true.mpr ⟨s, hs, hne⟩
      rw [updatedProject_tech, if_pos ht, hs, Option.getD_some, techTokens_eq_techSpec]
  · intro s t ht
    rw [← techTokens_eq_techSpec] at ht
    exact techTokens_clean s t ht

/-- C3 (witness): the sample body with tech `Go, React`, created and then sent
as an update of record 1000. -/
theorem c3_tech_tokens_witness :
    createReq.sessionUser = some "admin".toList ∧ hasRequired createReq.body ∧
    createReq.body.tech = some "Go, React".toList ∧
    techSpec "Go, React".toList = ["Go".toList, "React".toList] ∧
    (∃ p, (postProjects sampleEnv createReq sampleWorld).response = ⟨201, ResBody.project p⟩ ∧
        (sampleEnv.write = WriteOutcome.ok →
          (postProjects sampleEnv createReq sampleWorld).world.disk =
            some (readDB sampleWorld ++ [p])) ∧
        p.tech = techSpec (createReq.body.tech.getD []) ∧
        (createReq.body.tech = none ∨ createReq.body.tech = some [] → p.tech = [])) ∧
    (∃ p, (putProject sampleEnv updateReq sampleWorld).response = ⟨200, ResBody.project p⟩ ∧
        (sampleEnv.write = WriteOutcome.ok →
          (putProject sampleEnv updateReq sampleWorld).world.disk =
            some ((readDB sampleWorld).set 0 p)) ∧
        p.tech = techSpec "Go, React".toList) :=
  ⟨rfl, by decide, rfl, by decide,
    (c3_tech_tokens sampleEnv createReq sampleWorld "admin".toList rfl).1 (by decide),
    (c3_tech_tokens sampleEnv updateReq sampleWorld "admin".toList rfl).2.1
      ⟨0, by decide⟩ "Go, React".toList (by decide) rfl (by decide)⟩

/-- C4 (counterexample): the snapshot write throws during a title-only update of
record 1000; the answer is 200 with the title `New`, while the snapshot still
holds the record with its old title `Old`, so the record returned is not the
record stored. -/
theorem c4_failed_write_keeps_old_title :
    failEnvThree.write = WriteOutcome.fails threeWorld.disk ∧
    (putProject failEnvThree titleOnlyReq threeWorld).response =
      ⟨200, ResBody.project { sampleProject with title := "New".toList }⟩ ∧
    (putProject failEnvThree titleOnlyReq threeWorld).world.disk =
      some [firstProject, sampleProject, thirdProject] ∧
    sampleProject.title = "Old".toList := by
  decide

/-- C4 (amended): an authenticated update of an id present in the stored list
`ps` that supplies only a non-empty title `X` and no file answers 200 with the
first record of that id, its title replaced by `X` and every other field as
before; the asset directory is untouched; when the snapshot write succeeds the
snapshot is `ps` with that record replaced at its position, every other record
unchanged and in place; when the write throws, the snapshot holds what the
failed write left. -/
theorem c4_title_only_update (env : Env) (req : Request) (w : World) (u : Str) (id : Int)
    (X : Str) (ps : List Project) (hauth : req.sessionUser = some u)
    (hid : parseInt req.paramId = some id) (hdisk : w.disk.getD [] = ps)
    (hmem : ∃ q ∈ ps, q.id = id) (hX : X ≠ [])
    (hbody : req.body = ⟨some X, none, none, none, none⟩) (hfile : req.file = none) :
    ∃ (i : Nat) (old : Project),
      ps[i]? = some old ∧ old.id = id ∧
      (∀ j q, j < i → ps[j]? = some q → q.id ≠ id) ∧
      (putProject env req w).response = ⟨200, ResBody.project { old with title := X }⟩ ∧
      (putProject env req w).world.uploads = w.uploads ∧
      (env.write = WriteOutcome.ok →
        (putProject env req w).world.disk =
          some (ps.take i ++ { old with title := X } :: ps.drop (i + 1))) ∧
      (∀ r, env.write = WriteOutcome.fails r → (putProject env req w).world.disk = r) := by
  have hps : readDB w = ps := by
    rw [← hdisk]; unfold readDB; cases w.disk <;> rfl
  subst hps
  obtain ⟨q, hq, hqid⟩ := hmem
  obtain ⟨i, hi⟩ := findIndex_of_mem (idMatches (some id)) hq (by simp [idMatches, hqid])
  have hi2 : findIndex (idMatches (parseInt req.paramId)) (readDB w) = some i := by
    rw [hid]; exact hi
  have hget : ((readDB w).get i).id = id := by
    have := (findIndex_some hi).1
    simpa [idMatches] using this
  have hX2 : truthy (some X) = true := truthy_eq_true.mpr ⟨X, rfl, hX⟩
  have hup : updatedProject ((readDB w).get i) req.body (upload env req w).2.1 =
      { (readDB w).get i with title := X } := by
    rw [upload_none env req w hfile, hbody]
    have hn : truthy (none : Option Str) = false := rfl
    simp only [updatedProject, hX2, hn, if_true, Option.getD_some]
    rfl
  refine ⟨i.val, (readDB w).get i, ?_, hget, ?_, ?_, ?_, ?_, ?_⟩
  · rw [List.get_eq_getElem]
    exact List.getElem?_eq_getElem i.isLt
  · intro j q hj hjq hqid2
    obtain ⟨hlt, hq2⟩ := List.getElem?_eq_some.mp hjq
    have := (findIndex_some hi).2 ⟨j, hlt⟩ hj
    rw [List.get_eq_getElem, hq2] at this
    simp [idMatches, hqid2] at this
  · rw [putProject_found env req w u hauth i hi2, hup]
  · rw [putProject_found env req w u hauth i hi2, upload_none env req w hfile]
    simp [writeDB_uploads]
  · intro hw
    rw [putProject_found env req w u hauth i hi2, hup,
      ← List.set_eq_take_cons_drop _ i.isLt]
    exact writeDB_ok _ _ _ hw
  · intro r hr
    rw [putProject_found env req w u hauth i hi2]
    exact writeDB_fails _ _ _ r hr

/-- C4 (witness): the title of the middle record of the three-record world set
to `New`; the first and the third record stay as they were. -/
theorem c4_title_only_update_witness :
    (putProject sampleEnv titleOnlyReq threeWorld).world.disk =
      some [firstProject, { sampleProject with title := "New".toList }, thirdProject] ∧
    ∃ (i : Nat) (old : Project),
      [firstProject, sampleProject, thirdProject][i]? = some old ∧ old.id = 1000 ∧
      (∀ j q, j < i → [firstProject, sampleProject, thirdProject][j]? = some q →
        q.id ≠ 1000) ∧
      (putProject sampleEnv titleOnlyReq threeWorld).response =
        ⟨200, ResBody.project { old with title := "New".toList }⟩ ∧
      (putProject sampleEnv titleOnlyReq threeWorld).world.uploads = threeWorld.uploads ∧
      (sampleEnv.write = WriteOutcome.ok →
        (putProject sampleEnv titleOnlyReq threeWorld).world.disk =
          some ([firstProject, sampleProject, thirdProject].take i ++
            { old with title := "New".toList } ::
              [firstProject, sampleProject, thirdProject].drop (i + 1))) ∧
      (∀ r, sampleEnv.write = WriteOutcome.fails r →
        (putProject sampleEnv titleOnlyReq threeWorld).world.disk = r) :=
  ⟨by decide,
    c4_title_only_update sampleEnv titleOnlyReq threeWorld "admin".toList 1000 "New".toList
      [firstProject, sampleProject, thirdProject] rfl (by decide) rfl (by decide) (by decide)
      rfl rfl⟩

/-- C5: a request whose session carries no user is answered 401 by the create,
update and remove routes, the world (snapshot and asset directory) is returned
unchanged and the only effect issued is that response, so neither the upload
step nor a handler body ran; the list route answers any request, whatever its
session, with 200 and the list held by the snapshot file (the empty list when
the file cannot be read), leaving the world unchanged. -/
theorem c5_unauthenticated_gate (env : Env) (req anyReq : Request) (w : World)
    (h : req.sessionUser = none) :
    postProjects env req w =
      ⟨w, ⟨401, ResBody.message "Unauthorized: You must be logged in."⟩, [Effect.respond 401]⟩ ∧
    putProject env req w =
      ⟨w, ⟨401, ResBody.message "Unauthorized: You must be logged in."⟩, [Effect.respond 401]⟩ ∧
    deleteProject env req w =
      ⟨w, ⟨401, ResBody.message "Unauthorized: You must be logged in."⟩, [Effect.respond 401]⟩ ∧
    (∀ ps, w.disk = some ps →
      getProjects anyReq w =
        ⟨w, ⟨200, ResBody.projects ps⟩, [Effect.readDB, Effect.respond 200]⟩) ∧
    (w.disk = none →
      getProjects anyReq w =
        ⟨w, ⟨200, ResBody.projects []⟩, [Effect.readDB, Effect.respond 200]⟩) := by
  refine ⟨?_, ?_, ?_, ?_, ?_⟩
  · simp only [postProjects, unauthorized req w _ h]
  · simp only [putProject, unauthorized req w _ h]
  · simp only [deleteProject, unauthorized req w _ h]
  · intro ps hps
    unfold getProjects readDB
    rw [hps]
  · intro hnone
    unfold getProjects readDB
    rw [hnone]

/-- C5 (witness): the anonymous sample request on the three-record world; the
list route, asked with and without a session, answers with the three stored
records. -/
theorem c5_unauthenticated_witness :
    anonReq.sessionUser = none ∧
    (postProjects sampleEnv anonReq threeWorld =
      ⟨threeWorld, ⟨401, ResBody.message "Unauthorized: You must be logged in."⟩,
        [Effect.respond 401]⟩ ∧
    putProject sampleEnv anonReq threeWorld =
      ⟨threeWorld, ⟨401, ResBody.message "Unauthorized: You must be logged in."⟩,
        [Effect.respond 401]⟩ ∧
    deleteProject sampleEnv anonReq threeWorld =
      ⟨threeWorld, ⟨401, ResBody.message "Unauthorized: You must be logged in."⟩,
        [Effect.respond 401]⟩) ∧
    getProjects anonReq threeWorld =
      ⟨threeWorld, ⟨200, ResBody.projects [firstProject, sampleProject, thirdProject]⟩,
        [Effect.readDB, Effect.respond 200]⟩ ∧
    getProjects createReq threeWorld =
      ⟨threeWorld, ⟨200, ResBody.projects [firstProject, sampleProject, thirdProject]⟩,
        [Effect.readDB, Effect.respond 200]⟩ ∧
    (getProjects createReq threeWorld).response.body =
      ResBody.projects [firstProject, sampleProject, thirdProject] :=
  ⟨rfl,
    ⟨(c5_unauthenticated_gate sampleEnv anonReq anonReq threeWorld rfl).1,
      (c5_unauthenticated_gate sampleEnv anonReq anonReq threeWorld rfl).2.1,
      (c5_unauthenticated_gate sampleEnv anonReq anonReq threeWorld rfl).2.2.1⟩,
    (c5_unauthenticated_gate sampleEnv anonReq anonReq threeWorld rfl).2.2.2.1
      [firstProject, sampleProject, thirdProject] rfl,
    (c5_unauthenticated_gate sampleEnv anonReq createReq threeWorld rfl).2.2.2.1
      [firstProject, sampleProject, thirdProject] rfl,
    by decide⟩

/-- C6 (counterexample): the snapshot write throws during the remove of record
1000 from the three-record world; the answer is 204 and the image of the record
is unlinked, while the snapshot still holds all three records, record 1000
included. -/
theorem c6_failed_write_keeps_record :
    failEnvThree.write = WriteOutcome.fails threeWorld.disk ∧
    ([firstProject, sampleProject, thirdProject].map Project.id).Nodup ∧
    (deleteProject failEnvThree updateReq threeWorld).response = ⟨204, ResBody.empty⟩ ∧
    (deleteProject failEnvThree updateReq threeWorld).world.disk =
      some [firstProject, sampleProject, thirdProject] ∧
    (deleteProject failEnvThree updateReq threeWorld).world.uploads =
      [("/uploads/950.png".toList, [4])] := by
  decide

/-- C6 (amended): for a stored list `ps` with pairwise distinct ids and an
authenticated remove of an id: when a record has that id the answer is 204;
when the snapshot write succeeds the persisted list is `ps` without the record
of that id, one record shorter, the others in their prior order; when the write
throws, the snapshot holds what the failed write left; when no record has that
id the answer is 404 and the world is returned unchanged. -/
theorem c6_remove (env : Env) (req : Request) (w : World) (u : Str) (id : Int)
    (ps : List Project) (hauth : req.sessionUser = some u)
    (hid : parseInt req.paramId = some id) (hdisk : w.disk.getD [] = ps)
    (hnd : (ps.map Project.id).Nodup) :
    ((∃ q ∈ ps, q.id = id) →
      (deleteProject env req w).response = ⟨204, ResBody.empty⟩ ∧
      (env.write = WriteOutcome.ok →
        (deleteProject env req w).world.disk =
          some (ps.filter (fun q => decide (q.id ≠ id))) ∧
        (ps.filter (fun q => decide (q.id ≠ id))).length + 1 = ps.length) ∧
      (∀ r, env.write = WriteOutcome.fails r → (deleteProject env req w).world.disk = r)) ∧
    ((∀ q ∈ ps, q.id ≠ id) →
      (deleteProject env req w).response = ⟨404, ResBody.message "Project not found"⟩ ∧
      (deleteProject env req w).world = w) := by
  have hps : readDB w = ps := by
    rw [← hdisk]; unfold readDB; cases w.disk <;> rfl
  subst hps
  constructor
  · rintro ⟨q, hq, hqid⟩
    obtain ⟨i, hi⟩ := findIndex_of_mem (idMatches (some id)) hq (by simp [idMatches, hqid])
    have hi2 : findIndex (idMatches (parseInt req.paramId)) (readDB w) = some i := by
      rw [hid]; exact hi
    have herase := eraseIdx_findIndex id (readDB w) i hnd hi
    rw [deleteProject_found env req w u hauth i hi2]
    refine ⟨rfl, ?_, ?_⟩
    · intro hwrite
      rw [← herase]
      exact ⟨writeDB_ok _ _ _ hwrite, List.length_eraseIdx_add_one i.isLt⟩
    · intro r hr
      exact writeDB_fails _ _ _ r hr
  · intro hnone
    have hi : findIndex (idMatches (parseInt req.paramId)) (readDB w) = none := by
      rw [findIndex_none, hid]
      intro x hx
      simpa [idMatches] using hnone x hx
    rw [deleteProject_notFound env req w u hauth hi]
    exact ⟨rfl, rfl⟩

/-- C6 (witness): the middle record removed from the three-record world, the
first and the third kept in order; a remove of the unknown id 77; and a remove
whose route parameter `9007199254740993` is read as `2 ^ 53` and takes out the
record of that id. -/
theorem c6_remove_witness :
    ((deleteProject sampleEnv updateReq threeWorld).response = ⟨204, ResBody.empty⟩ ∧
      (deleteProject sampleEnv updateReq threeWorld).world.disk =
        some [firstProject, thirdProject]) ∧
    ((deleteProject sampleEnv updateReq threeWorld).world.disk =
        some ([firstProject, sampleProject, thirdProject].filter
          (fun q => decide (q.id ≠ 1000))) ∧
      ([firstProject, sampleProject, thirdProject].filter
          (fun q => decide (q.id ≠ 1000))).length + 1 =
        [firstProject, sampleProject, thirdProject].length) ∧
    ((deleteProject sampleEnv unknownIdReq threeWorld).response =
        ⟨404, ResBody.message "Project not found"⟩ ∧
      (deleteProject sampleEnv unknownIdReq threeWorld).world = threeWorld) ∧
    (parseInt bigReq.paramId = some 9007199254740992 ∧
      (deleteProject sampleEnv bigReq bigWorld).response = ⟨204, ResBody.empty⟩ ∧
      (deleteProject sampleEnv bigReq bigWorld).world.disk = some [firstProject]) :=
  ⟨by decide,
    ((c6_remove sampleEnv updateReq threeWorld "admin".toList 1000
      [firstProject, sampleProject, thirdProject] rfl (by decide) rfl (by decide)).1
      (by decide)).2.1 rfl,
    (c6_remove sampleEnv unknownIdReq threeWorld "admin".toList 77
      [firstProject, sampleProject, thirdProject] rfl (by decide) rfl (by decide)).2
      (by decide),
    by decide,
    ((c6_remove sampleEnv bigReq bigWorld "admin".toList 9007199254740992
      [firstProject, bigProject] rfl (by decide) rfl (by decide)).1 (by decide)).1,
    (((c6_remove sampleEnv bigReq bigWorld "admin".toList 9007199254740992
      [firstProject, bigProject] rfl (by decide) rfl (by decide)).1 (by decide)).2.1 rfl).1⟩

/-- C7 (counterexample): the snapshot write throws in a create, an update and a
remove of the sample world; the three calls are answered 201 with the record,
200 with the record and 204, while the snapshot file still holds the old
list. -/
theorem c7_failed_write_answered_success :
    failEnv.write = WriteOutcome.fails sampleWorld.disk ∧
    (postProjects failEnv createReq sampleWorld).response =
      ⟨201, ResBody.project (newProject failEnv sampleBody none)⟩ ∧
    (postProjects failEnv createReq sampleWorld).world.disk = some [sampleProject] ∧
    (putProject failEnv titleOnlyReq sampleWorld).response =
      ⟨200, ResBody.project { sampleProject with title := "New".toList }⟩ ∧
    (putProject failEnv titleOnlyReq sampleWorld).world.disk = some [sampleProject] ∧
    (deleteProject failEnv updateReq sampleWorld).response = ⟨204, ResBody.empty⟩ ∧
    (deleteProject failEnv updateReq sampleWorld).world.disk = some [sampleProject] := by
  decide

/-- C7 (amended): in every create, update or remove call in which the snapshot
write is attempted and throws, the exception is caught inside `writeDB` and the
caller receives the success response all the same: 201 with the new record, 200
with the updated record, 204; the snapshot file holds whatever the failed write
left. -/
theorem c7_write_failure_swallowed (env : Env) (req : Request) (w : World)
    (r : Option (List Project)) (hfail : env.write = WriteOutcome.fails r) :
    ((∃ d, Effect.writeDB d ∈ (postProjects env req w).trace) →
      (∃ p, (postProjects env req w).response = ⟨201, ResBody.project p⟩) ∧
      (postProjects env req w).world.disk = r) ∧
    ((∃ d, Effect.writeDB d ∈ (putProject env req w).trace) →
      (∃ p, (putProject env req w).response = ⟨200, ResBody.project p⟩) ∧
      (putProject env req w).world.disk = r) ∧
    ((∃ d, Effect.writeDB d ∈ (deleteProject env req w).trace) →
      (deleteProject env req w).response = ⟨204, ResBody.empty⟩ ∧
      (deleteProject env req w).world.disk = r) := by
  cases hs : req.sessionUser with
  | none =>
    rw [postProjects, putProject, deleteProject, unauthorized req w _ hs,
      unauthorized req w _ hs, unauthorized req w _ hs]
    refine ⟨?_, ?_, ?_⟩ <;> rintro ⟨d, hd⟩ <;> simp at hd
  | some u =>
    refine ⟨?_, ?_, ?_⟩
    · rintro ⟨d, hd⟩
      by_cases hreq : hasRequired req.body
      · rw [postProjects_created env req w u hs hreq]
        exact ⟨⟨_, rfl⟩, writeDB_fails _ _ _ r hfail⟩
      · rw [postProjects_rejected env req w u hs hreq] at hd
        rcases List.mem_append.mp hd with hd | hd
        · exact absurd hd (upload_trace_no_write env req w d)
        · simp at hd
    · rintro ⟨d, hd⟩
      cases hi : findIndex (idMatches (parseInt req.paramId)) (readDB w) with
      | none =>
        rw [putProject_notFound env req w u hs hi] at hd
        rcases List.mem_append.mp hd with hd | hd
        · exact absurd hd (upload_trace_no_write env req w d)
        · simp at hd
      | some i =>
        rw [putProject_found env req w u hs i hi]
        exact ⟨⟨_, rfl⟩, writeDB_fails _ _ _ r hfail⟩
    · rintro ⟨d, hd⟩
      cases hi : findIndex (idMatches (parseInt req.paramId)) (readDB w) with
      | none =>
        rw [deleteProject_notFound env req w u hs hi] at hd
        simp at hd
      | some i =>
        rw [deleteProject_found env req w u hs i hi]
        exact ⟨rfl, writeDB_fails _ _ _ r hfail⟩

/-- C7 (witness): the three sample calls with a throwing snapshot write. -/
theorem c7_write_failure_witness :
    failEnv.write = WriteOutcome.fails sampleWorld.disk ∧
    ((∃ p, (postProjects failEnv createReq sampleWorld).response = ⟨201, ResBody.project p⟩) ∧
      (postProjects failEnv createReq sampleWorld).world.disk = sampleWorld.disk) ∧
    ((∃ p, (putProject failEnv titleOnlyReq sampleWorld).response = ⟨200, ResBody.project p⟩) ∧
      (putProject failEnv titleOnlyReq sampleWorld).world.disk = sampleWorld.disk) ∧
    ((deleteProject failEnv updateReq sampleWorld).response = ⟨204, ResBody.empty⟩ ∧
      (deleteProject failEnv updateReq sampleWorld).world.disk = sampleWorld.disk) :=
  ⟨rfl,
    (c7_write_failure_swallowed failEnv createReq sampleWorld sampleWorld.disk rfl).1
      ⟨[sampleProject, newProject failEnv sampleBody none], by decide⟩,
    (c7_write_failure_swallowed failEnv titleOnlyReq sampleWorld sampleWorld.disk rfl).2.1
      ⟨[{ sampleProject with title := "New".toList }], by decide⟩,
    (c7_write_failure_swallowed failEnv updateReq sampleWorld sampleWorld.disk rfl).2.2
      ⟨[], by decide⟩⟩

/-- C8 (counterexample): an authenticated create with an empty title and an
image file is answered 400, an authenticated update of an unknown id with an
image file is answered 404, and in both cases the asset directory has gained the
uploaded file. -/
theorem c8_rejected_upload_left_behind :
    (postProjects sampleEnv noTitleFileReq sampleWorld).response =
      ⟨400, ResBody.message "Missing required fields"⟩ ∧
    (postProjects sampleEnv noTitleFileReq sampleWorld).world.uploads =
      [("/uploads/2000.png".toList, [9]), ("/uploads/900.png".toList, [1, 2, 3])] ∧
    (postProjects sampleEnv noTitleFileReq sampleWorld).world.uploads ≠ sampleWorld.uploads ∧
    (putProject sampleEnv unknownIdFileReq sampleWorld).response =
      ⟨404, ResBody.message "Project not found"⟩ ∧
    (putProject sampleEnv unknownIdFileReq sampleWorld).world.uploads =
      [("/uploads/2000.png".toList, [9]), ("/uploads/900.png".toList, [1, 2, 3])] ∧
    (putProject sampleEnv unknownIdFileReq sampleWorld).world.uploads ≠ sampleWorld.uploads := by
  decide

/-- C8 (amended): a create request that fails validation and an update request
whose id is not in the stored list leave the persisted snapshot unchanged; the
whole world (asset directory included) is unchanged when the request carries no
image file or no authenticated session; when an authenticated request carries
an image file, the upload step has run before the handler: the asset directory
holds that file under its time-based name and every file stored under another
name is as before. -/
theorem c8_rejected_requests (env : Env) (req : Request) (w : World) :
    ((truthy req.body.title = false ∨ truthy req.body.category = false ∨
        truthy req.body.description = false) →
      (postProjects env req w).world.disk = w.disk ∧
      (req.sessionUser = none ∨ req.file = none → (postProjects env req w).world = w) ∧
      (∀ u f, req.sessionUser = some u → req.file = some f →
        (uploadRef (Nat.toDigits 10 env.uploadNow ++ f.ext), f.bytes) ∈
          (postProjects env req w).world.uploads ∧
        ∀ e : Str × List Nat, e.1 ≠ uploadRef (Nat.toDigits 10 env.uploadNow ++ f.ext) →
          (e ∈ (postProjects env req w).world.uploads ↔ e ∈ w.uploads))) ∧
    ((∀ q ∈ w.disk.getD [], some q.id ≠ parseInt req.paramId) →
      (putProject env req w).world.disk = w.disk ∧
      (req.sessionUser = none ∨ req.file = none → (putProject env req w).world = w) ∧
      (∀ u f, req.sessionUser = some u → req.file = some f →
        (uploadRef (Nat.toDigits 10 env.uploadNow ++ f.ext), f.bytes) ∈
          (putProject env req w).world.uploads ∧
        ∀ e : Str × List Nat, e.1 ≠ uploadRef (Nat.toDigits 10 env.uploadNow ++ f.ext) →
          (e ∈ (putProject env req w).world.uploads ↔ e ∈ w.uploads))) := by
  have hstore : ∀ (ref : Str) (bytes : List Nat) (area : List (Str × List Nat)),
      (ref, bytes) ∈ storeFile ref bytes area ∧
      ∀ e : Str × List Nat, e.1 ≠ ref → (e ∈ storeFile ref bytes area ↔ e ∈ area) := by
    intro ref bytes area
    unfold storeFile
    refine ⟨List.mem_cons_self _ _, ?_⟩
    intro e he
    rw [List.mem_cons, List.mem_filter]
    constructor
    · rintro (h | ⟨h, -⟩)
      · exact absurd (congrArg Prod.fst h) he
      · exact h
    · intro h
      exact Or.inr ⟨h, by simpa using he⟩
  constructor
  · intro h
    have hnot : ¬ hasRequired req.body := by
      rintro ⟨h1, h2, h3⟩
      rcases h with h | h | h
      · rw [h1] at h; exact absurd h (by decide)
      · rw [h2] at h; exact absurd h (by decide)
      · rw [h3] at h; exact absurd h (by decide)
    cases hs : req.sessionUser with
    | none =>
      rw [postProjects, unauthorized req w _ hs]
      exact ⟨rfl, fun _ => rfl, fun u f hu => absurd hu (by simp)⟩
    | some u =>
      rw [postProjects_rejected env req w u hs hnot]
      refine ⟨upload_disk env req w, ?_, ?_⟩
      · rintro (h1 | h1)
        · exact absurd h1 (by simp)
        · show (upload env req w).1 = w
          rw [upload_none env req w h1]
      · intro _ f _ hf
        show _ ∈ (upload env req w).1.uploads ∧
          ∀ e : Str × List Nat, _ → (e ∈ (upload env req w).1.uploads ↔ _)
        rw [upload_some env req w f hf]
        exact hstore _ _ _
  · intro h
    have hdb : readDB w = w.disk.getD [] := by
      unfold readDB; cases w.disk <;> rfl
    have hi : findIndex (idMatches (parseInt req.paramId)) (readDB w) = none := by
      rw [findIndex_none, hdb]
      intro x hx
      simpa [idMatches] using h x hx
    cases hs : req.sessionUser with
    | none =>
      rw [putProject, unauthorized req w _ hs]
      exact ⟨rfl, fun _ => rfl, fun u f hu => absurd hu (by simp)⟩
    | some u =>
      rw [putProject_notFound env req w u hs hi]
      refine ⟨upload_disk env req w, ?_, ?_⟩
      · rintro (h1 | h1)
        · exact absurd h1 (by simp)
        · show (upload env req w).1 = w
          rw [upload_none env req w h1]
      · intro _ f _ hf
        show _ ∈ (upload env req w).1.uploads ∧
          ∀ e : Str × List Nat, _ → (e ∈ (upload env req w).1.uploads ↔ _)
        rw [upload_some env req w f hf]
        exact hstore _ _ _

/-- C8 (witness): on the three-record world, the rejected create without file
leaves the world as it was; the rejected update of the unknown id 77 with a file
leaves the snapshot as it was, the file `/uploads/2000.png` in the asset
directory and the two files stored before in place.  The update whose route
parameter `9007199254740993` is read as `2 ^ 53` is not among the rejected ones
when a record has id `2 ^ 53`. -/
theorem c8_rejected_requests_witness :
    (postProjects sampleEnv noTitleReq threeWorld).world = threeWorld ∧
    (putProject sampleEnv unknownIdFileReq threeWorld).world.disk =
      some [firstProject, sampleProject, thirdProject] ∧
    ("/uploads/2000.png".toList, [9]) ∈
      (putProject sampleEnv unknownIdFileReq threeWorld).world.uploads ∧
    (("/uploads/900.png".toList, [1, 2, 3]) ∈
      (putProject sampleEnv unknownIdFileReq threeWorld).world.uploads ↔
        ("/uploads/900.png".toList, [1, 2, 3]) ∈ threeWorld.uploads) ∧
    (putProject sampleEnv unknownIdFileReq threeWorld).world.uploads =
      [("/uploads/2000.png".toList, [9]), ("/uploads/900.png".toList, [1, 2, 3]),
        ("/uploads/950.png".toList, [4])] ∧
    ¬ (∀ q ∈ bigWorld.disk.getD [], some q.id ≠ parseInt bigReq.paramId) :=
  ⟨((c8_rejected_requests sampleEnv noTitleReq threeWorld).1 (Or.inl rfl)).2.1 (Or.inr rfl),
    ((c8_rejected_requests sampleEnv unknownIdFileReq threeWorld).2 (by decide)).1,
    (((c8_rejected_requests sampleEnv unknownIdFileReq threeWorld).2 (by decide)).2.2
      "admin".toList samplePart rfl rfl).1,
    (((c8_rejected_requests sampleEnv unknownIdFileReq threeWorld).2 (by decide)).2.2
      "admin".toList samplePart rfl rfl).2 ("/uploads/900.png".toList, [1, 2, 3])
      (by decide),
    by decide,
    by decide⟩

/-- C9 (counterexample): record 1000 has image `/uploads/900.png` and is updated
with a new image; the effects issued are: store the new upload, read the
snapshot, unlink `/uploads/900.png`, write the snapshot, respond 200.  The unlink
of the old asset is issued before the snapshot write. -/
theorem c9_unlink_issued_before_write :
    (putProject sampleEnv imageUpdateReq sampleWorld).trace =
      [Effect.storeUpload "/uploads/2000.png".toList,
        Effect.readDB,
        Effect.unlink "/uploads/900.png".toList,
        Effect.writeDB [{ sampleProject with image := some "/uploads/2000.png".toList }],
        Effect.respond 200] ∧
    issuedBefore isUnlink isWriteDB (putProject sampleEnv imageUpdateReq sampleWorld).trace
      = true ∧
    issuedBefore isWriteDB isUnlink (putProject sampleEnv imageUpdateReq sampleWorld).trace
      = false := by
  decide

/-- C9 (amended): in every authenticated update of an existing record that
brings a new image while the record already has one, the effects are issued in
this order: store the new upload, read the snapshot, unlink the previous asset,
write the snapshot that references the new asset, respond 200.  The unlink of
the old asset is issued before the snapshot write and never after it. -/
theorem c9_unlink_precedes_write (env : Env) (req : Request) (w : World) (u : Str)
    (f : FilePart) (i : Fin (readDB w).length) (hauth : req.sessionUser = some u)
    (hfile : req.file = some f)
    (hi : findIndex (idMatches (parseInt req.paramId)) (readDB w) = some i)
    (himg : truthy ((readDB w).get i).image = true) :
    ∃ p, p.image = some (uploadRef (Nat.toDigits 10 env.uploadNow ++ f.ext)) ∧
      (putProject env req w).trace =
        [Effect.storeUpload (uploadRef (Nat.toDigits 10 env.uploadNow ++ f.ext)),
          Effect.readDB,
          Effect.unlink (((readDB w).get i).image.getD []),
          Effect.writeDB ((readDB w).set i.val p),
          Effect.respond 200] ∧
      issuedBefore isUnlink isWriteDB (putProject env req w).trace = true ∧
      issuedBefore isWriteDB isUnlink (putProject env req w).trace = false := by
  have ht : (putProject env req w).trace =
      [Effect.storeUpload (uploadRef (Nat.toDigits 10 env.uploadNow ++ f.ext)),
        Effect.readDB,
        Effect.unlink (((readDB w).get i).image.getD []),
        Effect.writeDB ((readDB w).set i.val
          (updatedProject ((readDB w).get i) req.body
            (some (Nat.toDigits 10 env.uploadNow ++ f.ext)))),
        Effect.respond 200] := by
    rw [putProject_found env req w u hauth i hi, upload_some env req w f hfile]
    simp only [Option.isSome_some, Bool.true_and, himg, if_true]
    rfl
  refine ⟨updatedProject ((readDB w).get i) req.body
    (some (Nat.toDigits 10 env.uploadNow ++ f.ext)), rfl, ht, ?_, ?_⟩
  · rw [ht]; rfl
  · rw [ht]; rfl

/-- C9 (witness): the sample record, which has an image, updated with a new
image. -/
theorem c9_unlink_precedes_write_witness :
    truthy ((readDB sampleWorld).get ⟨0, by decide⟩).image = true ∧
    ∃ p, p.image = some (uploadRef (Nat.toDigits 10 sampleEnv.uploadNow ++ samplePart.ext)) ∧
      (putProject sampleEnv imageUpdateReq sampleWorld).trace =
        [Effect.storeUpload (uploadRef (Nat.toDigits 10 sampleEnv.uploadNow ++ samplePart.ext)),
          Effect.readDB,
          Effect.unlink (((readDB sampleWorld).get ⟨0, by decide⟩).image.getD []),
          Effect.writeDB ((readDB sampleWorld).set 0 p),
          Effect.respond 200] ∧
      issuedBefore isUnlink isWriteDB (putProject sampleEnv imageUpdateReq sampleWorld).trace
        = true ∧
      issuedBefore isWriteDB isUnlink (putProject sampleEnv imageUpdateReq sampleWorld).trace
        = false :=
  ⟨by decide,
    c9_unlink_precedes_write sampleEnv imageUpdateReq sampleWorld "admin".toList samplePart
      ⟨0, by decide⟩ rfl rfl (by decide) (by decide)⟩

/-- C10 (counterexample): record 1000 has tech `["Go"]`; an update whose tech
field is a single comma stores and returns the record with an empty tech
list. -/
theorem c10_comma_clears_tech :
    sampleProject.tech = ["Go".toList] ∧
    commaTechReq.body.tech = some ",".toList ∧
    (putProject sampleEnv commaTechReq sampleWorld).response =
      ⟨200, ResBody.project { sampleProject with tech := [] }⟩ ∧
    (putProject sampleEnv commaTechReq sampleWorld).world.disk =
      some [{ sampleProject with tech := [] }] := by
  decide

/-- C10 (amended): in every authenticated update of a record present in the
store, a field among title, category, description, tech and url that is
supplied as the empty string keeps its prior value in the record returned and
written; a non-empty url stays non-empty, and non-empty title, category and
description stay non-empty, after any update; a non-empty tech list becomes
empty only through a non-empty tech input that holds no token. -/
theorem c10_empty_field_ignored (env : Env) (req : Request) (w : World) (u : Str)
    (i : Fin (readDB w).length) (hauth : req.sessionUser = some u)
    (hi : findIndex (idMatches (parseInt req.paramId)) (readDB w) = some i) :
    ∃ p, (putProject env req w).response = ⟨200, ResBody.project p⟩ ∧
      (env.write = WriteOutcome.ok →
        (putProject env req w).world.disk = some ((readDB w).set i.val p)) ∧
      (req.body.title = some [] → p.title = ((readDB w).get i).title) ∧
      (req.body.category = some [] → p.category = ((readDB w).get i).category) ∧
      (req.body.description = some [] → p.description = ((readDB w).get i).description) ∧
      (req.body.tech = some [] → p.tech = ((readDB w).get i).tech) ∧
      (req.body.url = some [] → p.url = ((readDB w).get i).url) ∧
      (((readDB w).get i).url ≠ [] → p.url ≠ []) ∧
      (((readDB w).get i).title ≠ [] → p.title ≠ []) ∧
      (((readDB w).get i).category ≠ [] → p.category ≠ []) ∧
      (((readDB w).get i).description ≠ [] → p.description ≠ []) ∧
      (((readDB w).get i).tech ≠ [] → p.tech = [] →
        ∃ s, req.body.tech = some s ∧ s ≠ [] ∧ techTokens s = []) := by
  refine ⟨updatedProject ((readDB w).get i) req.body (upload env req w).2.1, ?_, ?_,
    ?_, ?_, ?_, ?_, ?_, ?_, ?_, ?_, ?_, ?_⟩
  · rw [putProject_found env req w u hauth i hi]
  · intro hw
    rw [putProject_found env req w u hauth i hi]
    exact writeDB_ok _ _ _ hw
  · intro h; rw [updatedProject_title, h]; rfl
  · intro h; rw [updatedProject_category, h]; rfl
  · intro h; rw [updatedProject_description, h]; rfl
  · intro h; rw [updatedProject_tech, h]; rfl
  · intro h; rw [updatedProject_url, h]; rfl
  · intro h
    rw [updatedProject_url]
    split
    · next ht => exact truthy_getD_ne_nil ht
    · exact h
  · intro h
    rw [updatedProject_title]
    split
    · next ht => exact truthy_getD_ne_nil ht
    · exact h
  · intro h
    rw [updatedProject_category]
    split
    · next ht => exact truthy_getD_ne_nil ht
    · exact h
  · intro h
    rw [updatedProject_description]
    split
    · next ht => exact truthy_getD_ne_nil ht
    · exact h
  · intro h hp
    rw [updatedProject_tech] at hp
    split at hp
    · next ht =>
      obtain ⟨s, hs, hne⟩ := truthy_eq_true.mp ht
      rw [hs, Option.getD_some] at hp
      exact ⟨s, hs, hne, hp⟩
    · exact absurd hp h

/-- C10 (witness): record 1000 of the sample world updated with the empty string
as tech. -/
theorem c10_empty_field_ignored_witness :
    ∃ p, (putProject sampleEnv emptyTechReq sampleWorld).response = ⟨200, ResBody.project p⟩ ∧
      (sampleEnv.write = WriteOutcome.ok →
        (putProject sampleEnv emptyTechReq sampleWorld).world.disk =
          some ((readDB sampleWorld).set 0 p)) ∧
      (emptyTechReq.body.title = some [] → p.title = sampleProject.title) ∧
      (emptyTechReq.body.category = some [] → p.category = sampleProject.category) ∧
      (emptyTechReq.body.description = some [] → p.description = sampleProject.description) ∧
      (emptyTechReq.body.tech = some [] → p.tech = sampleProject.tech) ∧
      (emptyTechReq.body.url = some [] → p.url = sampleProject.url) ∧
      (sampleProject.url ≠ [] → p.url ≠ []) ∧
      (sampleProject.title ≠ [] → p.title ≠ []) ∧
      (sampleProject.category ≠ [] → p.category ≠ []) ∧
      (sampleProject.description ≠ [] → p.description ≠ []) ∧
      (sampleProject.tech ≠ [] → p.tech = [] →
        ∃ s, emptyTechReq.body.tech = some s ∧ s ≠ [] ∧ techTokens s = []) :=
  c10_empty_field_ignored sampleEnv emptyTechReq sampleWorld "admin".toList ⟨0, by decide⟩ rfl
    (by decide)

end Portoweb
